import Mathlib

/-!
# Verification of the saga-python remote job core

A shallow embedding of the parts of the repository that the checked
properties talk about:

* `src/saga/adaptors/ssh/ssh_wrapper.py` — the POSIX-shell wrapper script
  (`_WRAPPER_SCRIPT`).  A job record is the per-job directory `BASE/<id>/`
  with its files; each `cmd_*` shell handler is embedded as a pure function
  on that record.  Shell strings that undergo field splitting are embedded
  as `List Char`.
* `src/saga/task.py` — the local `Task` / `Container` layer.  The
  interesting behaviour there is which external calls a method issues,
  so those methods are embedded as functions that return the list of
  emitted calls.
-/

/-! ## Job records (the agent's `BASE/<id>/` directory) -/

/-- Reply of one agent handler, as framed by `listen`: `OK\n<payload>` or
`ERROR\n<message>`.  The payload is the handler's `RETVAL`, the message its
`ERROR` variable. -/
inductive Reply where
  | ok (payload : String)
  | error (msg : String)
  deriving Repr, DecidableEq

/-- `true` iff the reply is an `OK` frame. -/
def Reply.isOk : Reply → Bool
  | .ok _ => true
  | .error _ => false

/-- One job's directory `BASE/<id>/` in the remote filesystem.

* `stateLines` — the lines of the append-only `state` file, each stored
  without its trailing newline (the tokens the script writes all carry a
  trailing space, e.g. `"RUNNING "`); `none` means the file is missing or
  unreadable (`test -r` fails).
* `pidFile` — content of `pid` (the monitored process id), `none` if missing.
* `exitFile` — content of `exit`; the monitor writes the numeric status of
  `wait`, so it is embedded as a `Nat`; `none` if missing.
* `suspended`, `resumed`, `canceled` — existence of the marker files.
* `stateSusp` — content of `state.susp` (one line, without its newline);
  `none` if the file does not exist.  The file is only ever written by
  `echo`, hence always ends in a newline and never has size 0.
* `inLines` — lines of the `in` (stdin feed) file, as raw characters;
  `none` if missing. -/
structure JobRecord where
  dirExists  : Bool
  stateLines : Option (List String)
  pidFile    : Option Nat
  exitFile   : Option Nat
  suspended  : Bool
  resumed    : Bool
  canceled   : Bool
  stateSusp  : Option String
  inLines    : Option (List (List Char))
  deriving Repr, DecidableEq

/-- A line matches `grep -e ' $'` iff its last character is a space. -/
def endsInSpace (l : String) : Bool := l.data.getLast? = some ' '

/-- `grep -e ' $' "$DIR/state" | tail -n 1`: the last line of the state file
that ends in a space.  If no line matches (or the file is missing) the
command substitution yields the empty string.  Command substitution strips
the trailing newline but keeps the trailing space of the token. -/
def currentState (r : JobRecord) : String :=
  (((r.stateLines.getD []).filter endsInSpace).getLast?).getD ""

/-- `echo "<tok>" >> "$DIR/state"`: append one token line to the state file
(`>>` creates the file when missing). -/
def appendState (r : JobRecord) (tok : String) : JobRecord :=
  { r with stateLines := some (r.stateLines.getD [] ++ [tok]) }

/-! ## Agent verbs

Each `cmd_*` handler below is transcribed from the wrapper script.  The
verify chain is inlined: `verify_state` is `verify_dir` (empty-id check,
directory check) plus the readability check of `state`; `verify_pid` adds
the readability check of `pid`.  Handlers that run `kill` take the success
of that `kill` as an explicit boolean `killOk`; the `$ECODE`/`$RETVAL`
interpolation inside the corresponding failure messages is abbreviated to
the fixed message prefix, since no property inspects it. -/

/-- `cmd_state`: report the current state token of job `id`. -/
def cmd_state (id : String) (r : JobRecord) : Reply :=
  if id = "" then .error "no pid given"
  else if r.dirExists = false then .error ("pid " ++ id ++ " not known")
  else if r.stateLines.isNone then .error ("pid " ++ id ++ " has no state")
  else .ok (currentState r)

/-- `cmd_wait`: transcribed separately from `cmd_state`; its body in the
script is character-for-character the same (the advertised timeout argument
is never read). -/
def cmd_wait (id : String) (r : JobRecord) : Reply :=
  if id = "" then .error "no pid given"
  else if r.dirExists = false then .error ("pid " ++ id ++ " not known")
  else if r.stateLines.isNone then .error ("pid " ++ id ++ " has no state")
  else .ok (currentState r)

/-- `cmd_result`: return the content of `exit` when the job is terminal.
Note that the script does not `return` after the missing-`exit` error; it
still runs `RETVAL=\x60cat exit\x60`, but `ERROR` being set makes the loop
emit the ERROR frame, so the reply is the error either way. -/
def cmd_result (id : String) (r : JobRecord) : Reply :=
  if id = "" then .error "no pid given"
  else if r.dirExists = false then .error ("pid " ++ id ++ " not known")
  else if r.stateLines.isNone then .error ("pid " ++ id ++ " has no state")
  else
    let st := currentState r
    if st ≠ "DONE " ∧ st ≠ "FAILED " ∧ st ≠ "CANCELED " then
      .error ("job " ++ id ++ " in incorrect state (" ++ st ++ " != DONE|FAILED|CANCELED)")
    else
      match r.exitFile with
      | none => .error ("job " ++ id ++ " in incorrect state -- no exit code available")
      | some n => .ok (toString n)

/-- `cmd_suspend`: legal only in state `"RUNNING "`.  It touches the
`suspended` marker, sends `kill -STOP`; on success it appends
`"SUSPENDED "` to the state log and writes `"$state "` — the current token,
which already carries its trailing space, plus one more space — to
`state.susp`; on kill failure it removes the marker again. -/
def cmd_suspend (id : String) (r : JobRecord) (killOk : Bool) : JobRecord × Reply :=
  if id = "" then (r, .error "no pid given")
  else if r.dirExists = false then (r, .error ("pid " ++ id ++ " not known"))
  else if r.stateLines.isNone then (r, .error ("pid " ++ id ++ " has no state"))
  else if r.pidFile.isNone then (r, .error ("pid " ++ id ++ " has no process id"))
  else
    let st := currentState r
    if st ≠ "RUNNING " then
      (r, .error ("job " ++ id ++ " in incorrect state (" ++ st ++ " != RUNNING)"))
    else if killOk then
      ({ appendState { r with suspended := true } "SUSPENDED " with
          stateSusp := some (st ++ " ") },
       .ok (id ++ " suspended"))
    else
      ({ r with suspended := false }, .error "suspend failed")

/-- `cmd_resume`: legal only in state `"SUSPENDED "`.  It touches the
`resumed` marker, sends `kill -CONT`; on success it appends the content of
`state.susp` to the state log (`test -s` only fails when the file is
missing, since `echo` always leaves a newline) and removes `state.susp`;
on kill failure it removes the marker again. -/
def cmd_resume (id : String) (r : JobRecord) (killOk : Bool) : JobRecord × Reply :=
  if id = "" then (r, .error "no pid given")
  else if r.dirExists = false then (r, .error ("pid " ++ id ++ " not known"))
  else if r.stateLines.isNone then (r, .error ("pid " ++ id ++ " has no state"))
  else if r.pidFile.isNone then (r, .error ("pid " ++ id ++ " has no process id"))
  else
    let st := currentState r
    if st ≠ "SUSPENDED " then
      (r, .error ("job " ++ id ++ " in incorrect state (" ++ st ++ " != SUSPENDED)"))
    else if killOk then
      let susp := match r.stateSusp with
        | some s => s
        | none => "RUNNING "
      (appendState { r with resumed := true, stateSusp := none } susp,
       .ok (id ++ " resumed"))
    else
      ({ r with resumed := false }, .error "resume failed")

/-- `cmd_cancel`: legal only in states `"SUSPENDED "` or `"RUNNING "`.  It
touches the `canceled` marker (the monitor later layers `CANCELED` onto the
terminal state), sends `kill -KILL`; on kill failure it removes the marker
again.  The script quotes the state inside the incorrect-state message with
single quotes; those quotes are omitted here. -/
def cmd_cancel (id : String) (r : JobRecord) (killOk : Bool) : JobRecord × Reply :=
  if id = "" then (r, .error "no pid given")
  else if r.dirExists = false then (r, .error ("pid " ++ id ++ " not known"))
  else if r.stateLines.isNone then (r, .error ("pid " ++ id ++ " has no state"))
  else if r.pidFile.isNone then (r, .error ("pid " ++ id ++ " has no process id"))
  else
    let st := currentState r
    if st ≠ "SUSPENDED " ∧ st ≠ "RUNNING " then
      (r, .error ("job " ++ id ++ " in incorrect state (" ++ st ++ " != SUSPENDED|RUNNING)"))
    else if killOk then
      ({ r with canceled := true }, .ok (id ++ " canceled"))
    else
      ({ r with canceled := false }, .error "cancel failed")

/-! ## The monitor loop (`monitor.sh` heredoc in `cmd_run_process`) -/

/-- One round of the monitor's `while true` loop after `wait $rpid` has
returned with status `retv`.  The boolean result is `true` when the loop
`continue`s (a marker round) and `false` when it `break`s (the terminal
round).  In the terminal round the monitor writes `retv` to `exit`, appends
`"DONE "` iff `retv = 0` and `"FAILED "` otherwise, and, iff the `canceled`
marker exists, additionally appends `"CANCELED "` and removes that marker. -/
def monitorStep (r : JobRecord) (retv : Nat) : JobRecord × Bool :=
  if r.suspended then ({ r with suspended := false }, true)
  else if r.resumed then ({ r with resumed := false }, true)
  else
    let r1 := { r with exitFile := some retv }
    let r2 := if retv = 0 then appendState r1 "DONE " else appendState r1 "FAILED "
    let r3 := if r2.canceled then { appendState r2 "CANCELED " with canceled := false } else r2
    (r3, false)

/-! ## Shell field splitting (`get_cmd` / `get_args` and `"$*"` / `"$@"`)

Unquoted expansions in the script (`get_args $LINE`, `cmd_stdin $args`)
split on the default IFS blanks (space and tab; a read line carries no
newline), dropping empty fields; `RETVAL=$@`, `"$*"` and `"$@"` rejoin the
positional parameters with single spaces.  Shell words are embedded as
`List Char`. -/

/-- A default-IFS blank: space or horizontal tab. -/
def isBlank (c : Char) : Bool := c = ' ' ∨ c = '\t'

/-- Worker for `fields`: `cur` holds the characters of the word being
scanned, in reverse order. -/
def fieldsAux : List Char → List Char → List (List Char)
  | [], cur => if cur = [] then [] else [cur.reverse]
  | c :: cs, cur =>
      if isBlank c then
        if cur = [] then fieldsAux cs [] else cur.reverse :: fieldsAux cs []
      else
        fieldsAux cs (c :: cur)

/-- IFS field splitting of an unquoted expansion: maximal runs of
non-blank characters. -/
def fields (s : List Char) : List (List Char) := fieldsAux s []

/-- Joining positional parameters with single spaces (`$@` or `$*` in an
assignment or inside double quotes). -/
def joinSp : List (List Char) → List Char
  | [] => []
  | [t] => t
  | t :: ts => t ++ ' ' :: joinSp ts

/-- `get_cmd $LINE`: the first field, or `NOOP` for a blank line. -/
def get_cmd (line : List Char) : List Char :=
  match fields line with
  | [] => "NOOP".data
  | c :: _ => c

/-- `get_args $LINE`: drop the first field (`shift`), rejoin the rest with
single spaces (`RETVAL=$@`). -/
def get_args (line : List Char) : List Char := joinSp ((fields line).drop 1)

/-- `cmd_stdin $args`: `$args` is re-split into positional parameters, the
first one is the job id (checked by `verify_in`), `shift` drops it and
`echo "$*" >> "$DIR/in"` appends the remaining fields joined by single
spaces, plus the newline `echo` adds, to the `in` file.  `inLines` stores
lines without their newlines. -/
def cmd_stdin (args : List Char) (r : JobRecord) : JobRecord × Reply :=
  match fields args with
  | [] => (r, .error "no pid given")
  | id :: rest =>
      if r.dirExists = false then (r, .error ("pid " ++ String.mk id ++ " not known"))
      else
        match r.inLines with
        | none => (r, .error ("pid " ++ String.mk id ++ " has no stdin"))
        | some ls =>
            ({ r with inLines := some (ls ++ [joinSp rest]) }, .ok "stdin refreshed")

/-- The `listen` loop handling one `STDIN` line: `get_args $LINE` computes
`$args`, then `cmd_stdin $args` runs. -/
def listen_stdin (line : List Char) (r : JobRecord) : JobRecord × Reply :=
  cmd_stdin (get_args line) r

/-- The command line stored into `cmd` by a `RUN` verb: `listen` computes
`$args` via `get_args $LINE`; `cmd_run $args` re-splits it into positional
parameters, which travel as `$@` through `cmd_run2` and `cmd_run_process`
to `echo "$@" > "$DIR/cmd"`, joining them with single spaces. -/
def run_cmd_stored (line : List Char) : List Char :=
  joinSp (fields (get_args line))

/-! ## The local task layer (`src/saga/task.py`) -/

/-- Task states used by `task.py` (`saga.utils.threads` supplies
NEW/RUNNING/DONE/FAILED, `saga.constants` UNKNOWN/CANCELED). -/
inductive TState where
  | unknown | new | running | done | failed | canceled
  deriving Repr, DecidableEq

/-- External launch calls `Task.run` can issue. -/
inductive LaunchCall where
  | threadRun       -- `self._thread.run ()`
  | adaptorTaskRun  -- `self._adaptor.task_run (self)`
  deriving Repr, DecidableEq

/-- The slice of a `Task` that `Task.run` reads: its current state and
whether `__init__` wrapped a callable in a `SagaThread`
(`self._thread` truthiness). -/
structure TaskM where
  state : TState
  hasThread : Bool
  deriving Repr, DecidableEq

/-- `Task.run`: `if self._thread : self._thread.run () else :
self._adaptor.task_run (self)`.  The method inspects nothing else and never
writes the task's attributes; it is embedded as the unchanged task plus the
list of external calls it makes. -/
def taskRun (t : TaskM) : TaskM × List LaunchCall :=
  if t.hasThread then (t, [.threadRun]) else (t, [.adaptorTaskRun])

/-- A worker thread as observed by `Container._wait_any` after its
`thread.join (timeout)` slice: the `SagaThread` state, whether the thread
is actually still alive, the value `get_result ()` would return (the
winning tasks), and the exception `get_exception ()` would return. -/
structure ThreadW where
  state : TState
  alive : Bool
  result : Option (List Nat)
  exn : String
  deriving Repr, DecidableEq

/-- The join slice `_wait_any` polls with: `timeout = 0.01` seconds
("heuristic"), i.e. 10 ms, embedded as a rational. -/
def waitAnySlice : ℚ := 1 / 100

/-- Truthiness of the expression `thread.isAlive` in `_wait_any`: the
attribute is referenced without calling it, so it evaluates to the bound
method object, and in Python a bound method is truthy — independent of
whether the thread is actually alive. -/
def isAliveAttrTruthy (_t : ThreadW) : Bool := true

/-- The polling pass of `Container._wait_any` over its worker threads:
`for thread in threads : thread.join (timeout); if FAILED : raise;
if not thread.isAlive : return thread.get_result ()`.  Falling off the
loop returns Python `None`, embedded as `.ok none`. -/
def waitAnyPoll : List ThreadW → Except String (Option (List Nat))
  | [] => .ok none
  | t :: ts =>
      if t.state = .failed then .error t.exn
      else if isAliveAttrTruthy t = false then .ok t.result
      else waitAnyPoll ts

/-- Python container / task membership is object identity here; tasks are
identified by numeric ids in the container models. -/
abbrev TaskId := Nat

/-- Errors a modelled Python call can raise. -/
inductive PyErr where
  | attributeError (msg : String)
  deriving Repr, DecidableEq

/-- `Container.remove`: `if task in self.tasks : self.tasks.delete (task)`.
Python lists have no attribute named `delete`, so the attribute lookup
raises `AttributeError` whenever the branch is taken; when the task is not
in the list nothing happens. -/
def containerRemove (tasks : List TaskId) (t : TaskId) : Except PyErr (List TaskId) :=
  if t ∈ tasks then
    .error (.attributeError "list object has no attribute delete")
  else
    .ok tasks

/-- A wait call emitted by `Container._wait_all`: either a bulk
`c.container_wait (tasks, ALL, timeout)` on a bound bucket or an individual
`task.wait (...)` on an unbound task.  `none` as timeout means the call was
made without a timeout argument (Python default `None`, which `Task.wait`
turns into `-1.0`, i.e. wait forever). -/
inductive WCall where
  | cWait (tasks : List TaskId) (timeout : Option ℚ)
  | tWait (task : TaskId) (timeout : Option ℚ)
  deriving Repr, DecidableEq

/-- First loop of `_wait_all`: `for c in buckets[bound] : ...
c.container_wait (tasks, ALL, timeout); ret = tasks[0]`.  Each bound
bucket is the concatenation of its per-method task lists; `ret` is
overwritten by the first task of each bucket in turn. -/
def waitAllBound (t : ℚ) : List (List TaskId) → Option TaskId → List WCall × Option TaskId
  | [], ret => ([], ret)
  | ts :: rest, _ =>
      let (cs, r) := waitAllBound t rest ts.head?
      (WCall.cWait ts (some t) :: cs, r)

/-- Second loop of `_wait_all`: `for task in buckets[unbound] :
task.wait (); ret = task`.  Note `task.wait ()` receives no timeout. -/
def waitAllUnbound : List TaskId → Option TaskId → List WCall × Option TaskId
  | [], ret => ([], ret)
  | u :: us, _ =>
      let (cs, r) := waitAllUnbound us (some u)
      (WCall.tWait u none :: cs, r)

/-- `Container._wait_all (timeout)` over the bucketization: the calls it
issues, in order, and the representative task it returns. -/
def waitAll (bound : List (List TaskId)) (unbound : List TaskId) (t : ℚ) :
    List WCall × Option TaskId :=
  let (cs1, r1) := waitAllBound t bound none
  let (cs2, r2) := waitAllUnbound unbound r1
  (cs1 ++ cs2, r2)

/-! ## Concrete records and bundled specifications used by the theorems -/

/-- A freshly started job: the monitor has appended `RUNNING`, `pid` is
written, no terminal transition yet. -/
def jobRunning : JobRecord :=
  ⟨true, some ["NEW ", "RUNNING "], some 9, none, false, false, false, none, some []⟩

/-- A naturally finished job: `DONE` with exit status 0. -/
def jobDone : JobRecord :=
  ⟨true, some ["NEW ", "RUNNING ", "DONE "], some 9, some 0, false, false, false, none, some []⟩

/-- A running job whose `canceled` marker was left by `cmd_cancel`. -/
def jobKilled : JobRecord :=
  ⟨true, some ["NEW ", "RUNNING "], some 9, none, false, false, true, none, some []⟩

/-- A worker thread that has genuinely finished and carries a non-empty
result (the id of the finished task). -/
def threadDoneEx : ThreadW := ⟨TState.done, false, some [1], ""⟩

/-- What one SUSPEND / RESUME round actually does, starting from a record
`r` whose current state token is `"RUNNING "` (both kills succeed). -/
def SuspendResumeSpec (id : String) (r : JobRecord) : Prop :=
  (cmd_suspend id r true).2 = .ok (id ++ " suspended") ∧
  currentState (cmd_suspend id r true).1 = "SUSPENDED " ∧
  (cmd_suspend id r true).1.stateSusp = some ("RUNNING " ++ " ") ∧
  (cmd_resume id (cmd_suspend id r true).1 true).2 = .ok (id ++ " resumed") ∧
  currentState (cmd_resume id (cmd_suspend id r true).1 true).1 = "RUNNING  " ∧
  cmd_state id (cmd_resume id (cmd_suspend id r true).1 true).1 = .ok "RUNNING  " ∧
  (cmd_suspend id (cmd_resume id (cmd_suspend id r true).1 true).1 true).2 =
    .error ("job " ++ id ++ " in incorrect state (" ++ "RUNNING  " ++ " != RUNNING)")

/-- What the monitor's terminal round does when neither the `suspended`
nor the `resumed` marker exists. -/
def MonitorTerminalSpec (r : JobRecord) (retv : Nat) : Prop :=
  (monitorStep r retv).2 = false ∧
  (monitorStep r retv).1.exitFile = some retv ∧
  (monitorStep r retv).1.stateLines =
    some (r.stateLines.getD [] ++
      ((if retv = 0 then ["DONE "] else ["FAILED "]) ++
       (if r.canceled then ["CANCELED "] else []))) ∧
  (monitorStep r retv).1.canceled = false ∧
  ("DONE " ∈ ((if retv = 0 then ["DONE "] else ["FAILED "]) ++
      (if r.canceled then ["CANCELED "] else [])) ↔ retv = 0) ∧
  ("FAILED " ∈ ((if retv = 0 then ["DONE "] else ["FAILED "]) ++
      (if r.canceled then ["CANCELED "] else [])) ↔ retv ≠ 0) ∧
  ("CANCELED " ∈ ((if retv = 0 then ["DONE "] else ["FAILED "]) ++
      (if r.canceled then ["CANCELED "] else [])) ↔ r.canceled = true)

/-- Full behaviour of `cmd_cancel` once the verify chain has passed and no
stale `canceled` marker is present. -/
def CancelSpec (id : String) (r : JobRecord) (killOk : Bool) : Prop :=
  ((cmd_cancel id r killOk).2 = .ok (id ++ " canceled") ↔
     ((currentState r = "RUNNING " ∨ currentState r = "SUSPENDED ") ∧ killOk = true)) ∧
  ((currentState r = "RUNNING " ∨ currentState r = "SUSPENDED ") → killOk = true →
     (cmd_cancel id r killOk).1 = { r with canceled := true }) ∧
  (¬(currentState r = "RUNNING " ∨ currentState r = "SUSPENDED ") →
     (cmd_cancel id r killOk).1 = r ∧
     (cmd_cancel id r killOk).2 =
       .error ("job " ++ id ++ " in incorrect state (" ++ currentState r ++ " != SUSPENDED|RUNNING)")) ∧
  ((currentState r = "RUNNING " ∨ currentState r = "SUSPENDED ") → killOk = false →
     (cmd_cancel id r killOk).1 = r ∧ (cmd_cancel id r killOk).2 = .error "cancel failed")

/-- Terminal state tokens, as `cmd_result` tests them. -/
def isTerminalTok (s : String) : Bool :=
  decide (s = "DONE ") || decide (s = "FAILED ") || decide (s = "CANCELED ")

/-- Full behaviour of `cmd_result` once the verify chain has passed. -/
def ResultSpec (id : String) (r : JobRecord) : Prop :=
  ((cmd_result id r).isOk = true ↔
     (isTerminalTok (currentState r) = true ∧ r.exitFile.isSome = true)) ∧
  (∀ n : Nat, isTerminalTok (currentState r) = true → r.exitFile = some n →
     cmd_result id r = .ok (toString n)) ∧
  (isTerminalTok (currentState r) = false →
     cmd_result id r =
       .error ("job " ++ id ++ " in incorrect state (" ++ currentState r ++ " != DONE|FAILED|CANCELED)")) ∧
  (isTerminalTok (currentState r) = true → r.exitFile = none →
     cmd_result id r = .error ("job " ++ id ++ " in incorrect state -- no exit code available"))

/-- What a handled `STDIN` line does to the `in` file, and what a `RUN`
line stores into `cmd`: in both cases the whitespace-separated fields of
the line, minus the verb (and, for `STDIN`, the id), re-joined by single
spaces.  `echo` terminates the appended `in` line with one newline. -/
def StdinSpec (line : List Char) (r : JobRecord) (ls : List (List Char)) : Prop :=
  (listen_stdin line r).1.inLines = some (ls ++ [joinSp ((fields line).drop 2)]) ∧
  (listen_stdin line r).2 = .ok "stdin refreshed" ∧
  run_cmd_stored line = joinSp ((fields line).drop 1)

/-! ## Helper lemmas -/

/-- Appending a space-terminated token makes it the current state. -/
theorem currentState_concat (ls : List String) (tok : String)
    (h : endsInSpace tok = true)
    (r : JobRecord) (hr : r.stateLines = some (ls ++ [tok])) :
    currentState r = tok := by
  unfold currentState
  rw [hr]
  simp [List.filter_append, h, List.getLast?_concat]

/-- Every field produced by `fieldsAux` from a non-blank accumulator is
non-empty and free of blanks. -/
theorem fieldsAux_tok_spec :
    ∀ (l cur : List Char), (∀ c ∈ cur, isBlank c = false) →
      ∀ t ∈ fieldsAux l cur, t ≠ [] ∧ ∀ c ∈ t, isBlank c = false := by
  intro l
  induction l with
  | nil =>
      intro cur hcur t ht
      by_cases hc : cur = []
      · simp [fieldsAux, hc] at ht
      · simp [fieldsAux, hc] at ht
        subst ht
        refine ⟨by simpa using hc, ?_⟩
        intro c hc'
        exact hcur c (List.mem_reverse.mp hc')
  | cons c cs ih =>
      intro cur hcur t ht
      by_cases hb : isBlank c = true
      · by_cases hc : cur = []
        · simp [fieldsAux, hb, hc] at ht
          exact ih [] (by simp) t ht
        · simp [fieldsAux, hb, hc] at ht
          rcases ht with ht | ht
          · subst ht
            refine ⟨by simpa using hc, ?_⟩
            intro x hx
            exact hcur x (List.mem_reverse.mp hx)
          · exact ih [] (by simp) t ht
      · have hb' : isBlank c = false := by simpa using hb
        simp [fieldsAux, hb'] at ht
        refine ih (c :: cur) ?_ t ht
        intro x hx
        rcases List.mem_cons.mp hx with hx | hx
        · subst hx; exact hb'
        · exact hcur x hx

/-- Every field of a split line is non-empty and free of blanks. -/
theorem fields_tok_spec (l : List Char) :
    ∀ t ∈ fields l, t ≠ [] ∧ ∀ c ∈ t, isBlank c = false :=
  fieldsAux_tok_spec l [] (by simp)

/-- Scanning a blank-free word moves it into the accumulator. -/
theorem fieldsAux_append_nonblank (t : List Char) (h : ∀ c ∈ t, isBlank c = false) :
    ∀ (l cur : List Char), fieldsAux (t ++ l) cur = fieldsAux l (t.reverse ++ cur) := by
  induction t with
  | nil => intro l cur; simp
  | cons c cs ih =>
      intro l cur
      have hc : isBlank c = false := h c (by simp)
      have hcs : ∀ x ∈ cs, isBlank x = false := fun x hx => h x (by simp [hx])
      simp [fieldsAux, hc, ih hcs, List.append_assoc]

/-- Splitting the single-space join of non-empty, blank-free words gives
the words back. -/
theorem fields_joinSp (ts : List (List Char))
    (h : ∀ t ∈ ts, t ≠ [] ∧ ∀ c ∈ t, isBlank c = false) :
    fields (joinSp ts) = ts := by
  induction ts with
  | nil => rfl
  | cons t ts ih =>
      obtain ⟨ht, hbl⟩ := h t (List.mem_cons_self t ts)
      have htr : t.reverse ≠ [] := by simpa using ht
      cases ts with
      | nil =>
          show fields (joinSp [t]) = [t]
          have h2 : fieldsAux (t ++ []) [] = fieldsAux [] (t.reverse ++ []) :=
            fieldsAux_append_nonblank t hbl [] []
          simp only [List.append_nil] at h2
          simp [fields, joinSp, h2, fieldsAux, htr]
      | cons t2 ts2 =>
          have hrest : ∀ x ∈ t2 :: ts2, x ≠ [] ∧ ∀ c ∈ x, isBlank c = false :=
            fun x hx => h x (List.mem_cons_of_mem t hx)
          have h2 : fieldsAux (t ++ ' ' :: joinSp (t2 :: ts2)) []
              = fieldsAux (' ' :: joinSp (t2 :: ts2)) (t.reverse ++ []) :=
            fieldsAux_append_nonblank t hbl _ []
          simp only [List.append_nil] at h2
          have h3 : fieldsAux (' ' :: joinSp (t2 :: ts2)) t.reverse
              = t.reverse.reverse :: fieldsAux (joinSp (t2 :: ts2)) [] := by
            simp [fieldsAux, isBlank, htr]
          calc fields (joinSp (t :: t2 :: ts2))
              = fieldsAux (t ++ ' ' :: joinSp (t2 :: ts2)) [] := rfl
            _ = t.reverse.reverse :: fieldsAux (joinSp (t2 :: ts2)) [] := by rw [h2, h3]
            _ = t :: fields (joinSp (t2 :: ts2)) := by simp [fields]
            _ = t :: (t2 :: ts2) := by rw [ih hrest]

/-- Re-splitting `$args` recovers the fields of the original line minus
the verb. -/
theorem fields_get_args (line : List Char) :
    fields (get_args line) = (fields line).drop 1 := by
  unfold get_args
  apply fields_joinSp
  intro t ht
  exact fields_tok_spec line t (List.drop_subset 1 (fields line) ht)


/-! ## Claim theorems -/

/-- C4: for every job id and every content of its job record, the WAIT
verb returns exactly the same reply as the STATE verb — `cmd_wait` is
extensionally equal to `cmd_state`, so WAIT merely reports the current
state token without blocking. -/
theorem wait_equals_state : ∀ (id : String) (r : JobRecord),
    cmd_wait id r = cmd_state id r :=
  fun _ _ => rfl

/-- C7 counterexample: a task in state RUNNING (not NEW) that does not
wrap a thread.  Calling `run()` on it is not a no-op: it re-issues the
adaptor's `task_run`. -/
theorem task_run_not_idempotent_cex :
    (taskRun ⟨TState.running, false⟩).2 ≠ [] ∧
    LaunchCall.adaptorTaskRun ∈ (taskRun ⟨TState.running, false⟩).2 := by
  decide

/-- C7 amended: `Task.run` never errors and never touches the task's
state, result or exception, but it is not a no-op for non-NEW tasks: it
unconditionally issues exactly one launch call (`thread.run` for callable
tasks, `adaptor.task_run` otherwise), exactly as it would for a NEW task,
so `run` composed with `run` issues the dispatch twice. -/
theorem task_run_always_dispatches (t : TaskM) :
    (taskRun t).1 = t ∧
    (taskRun t).2.length = 1 ∧
    (taskRun t).2 = (taskRun { t with state := TState.new }).2 := by
  cases t with
  | mk s th => cases th <;> simp [taskRun]

/-- C8: `Container.remove` on a task that is in the task list raises
`AttributeError`, because `self.tasks.delete` names a method Python lists
do not have; on a task not in the list it is a no-op.  Evaluated at the
failing input `tasks = [7]`, `t = 7` (and at `t = 9 ∉ [7]`). -/
theorem container_remove_raises :
    containerRemove [7] 7 = .error (.attributeError "list object has no attribute delete") ∧
    containerRemove [7] 9 = .ok [7] :=
  ⟨rfl, rfl⟩

/-- C9 counterexample: a container whose bucketization is one unbound task
`5`, waited with `wait(ALL, 3)`.  The single worker call issued is
`task.wait()` with no timeout, not `task.wait(3)` — refuting the claim
that every unbound task's wait call receives the timeout. -/
theorem wait_all_timeout_cex :
    (waitAll [] [5] 3).1 = [WCall.tWait 5 none] ∧
    WCall.tWait 5 (some 3) ∉ (waitAll [] [5] 3).1 := by
  decide

/-- C9 amended: in `Container._wait_all(t)` the timeout is not enforced
globally but per worker call, and only for the bound buckets: every bound
bucket's `container_wait` receives `t` (so those calls alone may take up
to `n·t` wall time for `n` buckets), while every unbound task is waited
via `task.wait()` with no timeout argument at all. -/
theorem wait_all_calls (bound : List (List TaskId)) (unbound : List TaskId) (t : ℚ) :
    (waitAll bound unbound t).1 =
      bound.map (fun ts => WCall.cWait ts (some t)) ++
      unbound.map (fun u => WCall.tWait u none) := by
  have h1 : ∀ (bs : List (List TaskId)) (r : Option TaskId),
      (waitAllBound t bs r).1 = bs.map (fun ts => WCall.cWait ts (some t)) := by
    intro bs
    induction bs with
    | nil => intro r; rfl
    | cons ts rest ih => intro r; simp [waitAllBound, ih]
  have h2 : ∀ (us : List TaskId) (r : Option TaskId),
      (waitAllUnbound us r).1 = us.map (fun u => WCall.tWait u none) := by
    intro us
    induction us with
    | nil => intro r; rfl
    | cons u rest ih => intro r; simp [waitAllUnbound, ih]
  simp [waitAll, h1, h2]

/-- C3 (code bug): in `_wait_any`, the join slice is 10 ms as claimed, but
a worker that has completed is never detected: `not thread.isAlive` tests
the truthiness of the bound method object instead of calling it, so the
polling pass falls through and returns `None` even when a finished worker
holds a non-empty result.  Evaluated at a single genuinely finished worker
carrying result `[1]`. -/
theorem wait_any_returns_none :
    threadDoneEx.alive = false ∧
    threadDoneEx.result = some [1] ∧
    waitAnyPoll [threadDoneEx] = .ok none ∧
    waitAnySlice = 1 / 100 :=
  ⟨rfl, rfl, rfl, rfl⟩

/-- C2: when the monitor's wait returns and neither the `suspended` nor
the `resumed` marker exists, the loop breaks, writes the numeric exit
status to `exit`, appends `DONE` iff the status is 0 and `FAILED`
otherwise, and appends `CANCELED` (removing the marker) iff the `canceled`
marker exists at that moment; hence a job reaching DONE/FAILED has an
integer `exit`, with DONE implying exit = 0 and FAILED implying exit ≠ 0. -/
theorem monitor_terminal (r : JobRecord) (retv : Nat)
    (hs : r.suspended = false) (hr : r.resumed = false) :
    MonitorTerminalSpec r retv := by
  unfold MonitorTerminalSpec
  by_cases h0 : retv = 0 <;> by_cases hc : r.canceled <;>
    refine ⟨?_, ?_, ?_, ?_, ?_, ?_, ?_⟩ <;>
      simp [monitorStep, appendState, hs, hr, h0, hc]

/-- C2 witness: the monitor's terminal round at a running job carrying a
`canceled` marker, with wait status 7. -/
theorem monitor_terminal_witness :
    jobKilled.suspended = false ∧ jobKilled.resumed = false ∧
    MonitorTerminalSpec jobKilled 7 :=
  ⟨rfl, rfl, monitor_terminal jobKilled 7 rfl rfl⟩

/-- C1 counterexample: on a fresh RUNNING job, SUSPEND then RESUME both
succeed, but STATE afterwards does not return the pre-suspend token
`"RUNNING "` — it returns `"RUNNING  "`, with one extra trailing space
picked up by `echo "$state " > state.susp` — and a subsequent SUSPEND is
not legal: it fails the exact comparison against `"RUNNING "`. -/
theorem suspend_resume_cex :
    (cmd_suspend "42" jobRunning true).2 = .ok "42 suspended" ∧
    (cmd_resume "42" (cmd_suspend "42" jobRunning true).1 true).2 = .ok "42 resumed" ∧
    cmd_state "42" (cmd_resume "42" (cmd_suspend "42" jobRunning true).1 true).1 ≠
      .ok "RUNNING " ∧
    cmd_state "42" (cmd_resume "42" (cmd_suspend "42" jobRunning true).1 true).1 =
      .ok "RUNNING  " ∧
    (cmd_suspend "42" (cmd_resume "42" (cmd_suspend "42" jobRunning true).1 true).1 true).2 ≠
      .ok "42 suspended" := by
  decide

/-- C1 amended: a successful SUSPEND on a RUNNING job appends `SUSPENDED`
and snapshots the pre-suspend token into `state.susp` with one extra
trailing space; a successful RESUME appends that snapshot, so the current
state becomes `"RUNNING  "` — the pre-suspend token padded by one space,
not the token itself.  STATE then returns the padded token, and a
subsequent SUSPEND is rejected with an incorrect-state ERROR because
`cmd_suspend` compares against exactly `"RUNNING "`. -/
theorem suspend_resume_amended (id : String) (r : JobRecord)
    (hid : id ≠ "") (hd : r.dirExists = true)
    (hsl : r.stateLines.isNone = false) (hp : r.pidFile.isNone = false)
    (hst : currentState r = "RUNNING ") :
    SuspendResumeSpec id r := by
  have e1 : cmd_suspend id r true =
      ({ appendState { r with suspended := true } "SUSPENDED " with
          stateSusp := some ("RUNNING " ++ " ") },
       .ok (id ++ " suspended")) := by
    simp [cmd_suspend, hid, hd, hsl, hp, hst]
  have h1state : (cmd_suspend id r true).1.stateLines =
      some (r.stateLines.getD [] ++ ["SUSPENDED "]) := by
    rw [e1]; simp [appendState]
  have h1cur : currentState (cmd_suspend id r true).1 = "SUSPENDED " :=
    currentState_concat _ "SUSPENDED " (by decide) _ h1state
  have h1d : (cmd_suspend id r true).1.dirExists = true := by
    rw [e1]; simpa [appendState] using hd
  have h1sl : (cmd_suspend id r true).1.stateLines.isNone = false := by
    rw [h1state]; rfl
  have h1p : (cmd_suspend id r true).1.pidFile.isNone = false := by
    rw [e1]; simpa [appendState] using hp
  have h1susp : (cmd_suspend id r true).1.stateSusp = some ("RUNNING " ++ " ") := by
    rw [e1]
  have e2 : cmd_resume id (cmd_suspend id r true).1 true =
      (appendState
        { (cmd_suspend id r true).1 with resumed := true, stateSusp := none }
        ("RUNNING " ++ " "),
       .ok (id ++ " resumed")) := by
    simp [cmd_resume, hid, h1d, h1sl, h1p, h1cur, h1susp]
  have h2state : (cmd_resume id (cmd_suspend id r true).1 true).1.stateLines =
      some ((r.stateLines.getD [] ++ ["SUSPENDED "]) ++ ["RUNNING " ++ " "]) := by
    rw [e2]; simp [appendState, h1state]
  have h2cur : currentState (cmd_resume id (cmd_suspend id r true).1 true).1 =
      "RUNNING  " := by
    have h := currentState_concat _ ("RUNNING " ++ " ") (by decide) _ h2state
    simpa using h
  have h2d : (cmd_resume id (cmd_suspend id r true).1 true).1.dirExists = true := by
    rw [e2]; simpa [appendState] using h1d
  have h2sl : (cmd_resume id (cmd_suspend id r true).1 true).1.stateLines.isNone = false := by
    rw [h2state]; rfl
  have h2p : (cmd_resume id (cmd_suspend id r true).1 true).1.pidFile.isNone = false := by
    rw [e2]; simpa [appendState] using h1p
  have hlast : ∀ r2 : JobRecord, r2.dirExists = true → r2.stateLines.isNone = false →
      r2.pidFile.isNone = false → currentState r2 = "RUNNING  " →
      cmd_state id r2 = .ok "RUNNING  " ∧
      (cmd_suspend id r2 true).2 =
        .error ("job " ++ id ++ " in incorrect state (" ++ "RUNNING  " ++ " != RUNNING)") := by
    intro r2 hd2 hsl2 hp2 hcur2
    constructor
    · simp [cmd_state, hid, hd2, hsl2, hcur2]
    · simp [cmd_suspend, hid, hd2, hsl2, hp2, hcur2]
  exact ⟨by rw [e1], h1cur, h1susp, by rw [e2], h2cur,
    (hlast _ h2d h2sl h2p h2cur).1, (hlast _ h2d h2sl h2p h2cur).2⟩

/-- C1 witness: the amended behaviour at a concrete fresh RUNNING job. -/
theorem suspend_resume_amended_witness :
    ("42" : String) ≠ "" ∧ jobRunning.dirExists = true ∧
    jobRunning.stateLines.isNone = false ∧ jobRunning.pidFile.isNone = false ∧
    currentState jobRunning = "RUNNING " ∧ SuspendResumeSpec "42" jobRunning :=
  ⟨by decide, rfl, rfl, rfl, by decide,
   suspend_resume_amended "42" jobRunning (by decide) rfl rfl rfl (by decide)⟩

/-- Removing an absent `canceled` marker leaves the record unchanged. -/
theorem setCanceled_self (r : JobRecord) (h : r.canceled = false) :
    { r with canceled := false } = r := by
  cases r; simp_all

/-- C5: with a valid record and pid file, CANCEL succeeds (replying
"<id> canceled" and leaving the `canceled` marker for the monitor) exactly
when the current state token is RUNNING or SUSPENDED and the kill
succeeds; in every other state — in particular DONE or FAILED — it returns
an incorrect-state ERROR and leaves the record unchanged, and when the
kill fails the marker is removed again so the record is also unchanged. -/
theorem cancel_spec (id : String) (r : JobRecord) (killOk : Bool)
    (hid : id ≠ "") (hd : r.dirExists = true)
    (hsl : r.stateLines.isNone = false) (hp : r.pidFile.isNone = false)
    (hc : r.canceled = false) :
    CancelSpec id r killOk := by
  obtain ⟨d, sl, pf, ef, su, re, c, ss, il⟩ := r
  replace hd : d = true := hd
  replace hc : c = false := hc
  subst hd
  subst hc
  unfold CancelSpec
  by_cases h1 : currentState ⟨true, sl, pf, ef, su, re, false, ss, il⟩ = "RUNNING " <;>
    by_cases h2 : currentState ⟨true, sl, pf, ef, su, re, false, ss, il⟩ = "SUSPENDED " <;>
      cases killOk <;>
        simp [cmd_cancel, hid, hsl, hp, h1, h2]

/-- C5 witness: CANCEL on a job whose current state is the terminal
`DONE` token. -/
theorem cancel_spec_witness :
    ("42" : String) ≠ "" ∧ jobDone.dirExists = true ∧
    jobDone.stateLines.isNone = false ∧ jobDone.pidFile.isNone = false ∧
    jobDone.canceled = false ∧ CancelSpec "42" jobDone true :=
  ⟨by decide, rfl, rfl, rfl, rfl, cancel_spec "42" jobDone true (by decide) rfl rfl rfl rfl⟩

/-- C6: with a valid record, RESULT replies OK exactly when the current
state token is DONE, FAILED or CANCELED and the `exit` file is readable,
in which case the payload is the integer content of `exit`; for a
non-terminal state it fails with the ERROR
"job <id> in incorrect state (...)", and for a terminal state without a
readable `exit` file it also fails. -/
theorem result_spec (id : String) (r : JobRecord)
    (hid : id ≠ "") (hd : r.dirExists = true) (hsl : r.stateLines.isNone = false) :
    ResultSpec id r := by
  unfold ResultSpec
  by_cases ht : isTerminalTok (currentState r) = true
  · have hcond : ¬(currentState r ≠ "DONE " ∧ currentState r ≠ "FAILED " ∧
        currentState r ≠ "CANCELED ") := by
      have h := ht
      simp [isTerminalTok] at h
      tauto
    cases hef : r.exitFile with
    | none =>
        have e : cmd_result id r =
            .error ("job " ++ id ++ " in incorrect state -- no exit code available") := by
          simp [cmd_result, hid, hd, hsl, hcond, hef]
        simp [e, ht, hef, Reply.isOk]
    | some n =>
        have e : cmd_result id r = .ok (toString n) := by
          simp [cmd_result, hid, hd, hsl, hcond, hef]
        simp [e, ht, hef, Reply.isOk]
  · have ht' : isTerminalTok (currentState r) = false := by simpa using ht
    have hcond : currentState r ≠ "DONE " ∧ currentState r ≠ "FAILED " ∧
        currentState r ≠ "CANCELED " := by
      have := ht'
      simp [isTerminalTok] at this
      tauto
    have e : cmd_result id r =
        .error ("job " ++ id ++ " in incorrect state (" ++ currentState r ++
          " != DONE|FAILED|CANCELED)") := by
      simp [cmd_result, hid, hd, hsl, hcond]
    simp [e, ht', Reply.isOk]

/-- C6 witness: RESULT on a job that finished with exit status 0. -/
theorem result_spec_witness :
    ("42" : String) ≠ "" ∧ jobDone.dirExists = true ∧
    jobDone.stateLines.isNone = false ∧ ResultSpec "42" jobDone :=
  ⟨by decide, rfl, rfl, result_spec "42" jobDone (by decide) rfl rfl⟩

/-- C10: a handled `STDIN id text…` line appends to the `in` file not the
literal argument text but the whitespace-separated fields of the line
after the verb and the id, re-joined by single spaces (plus the newline
`echo` adds) — runs of spaces or tabs are collapsed by the `get_args` /
`$*` tokenization; and the `RUN` command line stored into `cmd` is
normalized the same way (the fields after the verb, space-joined). -/
theorem stdin_tokens (line : List Char) (r : JobRecord) (ls : List (List Char))
    (hd : r.dirExists = true) (hin : r.inLines = some ls)
    (hlen : 2 ≤ (fields line).length) :
    StdinSpec line r ls := by
  obtain ⟨a, tl, hfl⟩ : ∃ a tl, fields line = a :: tl := by
    cases hfle : fields line with
    | nil => rw [hfle] at hlen; simp at hlen
    | cons a tl => exact ⟨a, tl, rfl⟩
  obtain ⟨b, tl2, htl⟩ : ∃ b tl2, tl = b :: tl2 := by
    cases htle : tl with
    | nil => rw [hfl, htle] at hlen; simp at hlen
    | cons b tl2 => exact ⟨b, tl2, rfl⟩
  have key : fields (get_args line) = b :: tl2 := by
    rw [fields_get_args]; simp [hfl, htl]
  have kd2 : (fields line).drop 2 = tl2 := by simp [hfl, htl]
  have kd1 : (fields line).drop 1 = b :: tl2 := by simp [hfl, htl]
  unfold StdinSpec listen_stdin run_cmd_stored
  rw [kd2, kd1, key]
  refine ⟨?_, ?_, rfl⟩
  · simp [cmd_stdin, key, hd, hin]
  · simp [cmd_stdin, key, hd, hin]

/-- C10 witness: `STDIN 42 a  b` (with a run of two spaces) on a fresh
job appends the collapsed line `a b`. -/
theorem stdin_tokens_witness :
    jobRunning.dirExists = true ∧ jobRunning.inLines = some [] ∧
    2 ≤ (fields "STDIN 42 a  b".data).length ∧
    StdinSpec "STDIN 42 a  b".data jobRunning [] :=
  ⟨rfl, rfl, by decide, stdin_tokens _ _ _ rfl rfl (by decide)⟩
